import Mathlib

/-!
Verification of the project-manager Obsidian plugin core (`src/main.ts`):
the local mirror, board projection, and drag-and-drop status-transition
handler, shallowly embedded in Lean 4.
-/

namespace ProjectManager

/-- Task status values, `src/main.ts` line 55:
`'todo' | 'in-progress' | 'done' | 'blocked' | 'cancelled'`. -/
inductive TaskStatus where
  | todo
  | inProgress
  | done
  | blocked
  | cancelled
deriving DecidableEq, Repr

/-- The string form of a task status, as stored in the TS string-literal union. -/
def TaskStatus.toStr : TaskStatus → String
  | .todo => "todo"
  | .inProgress => "in-progress"
  | .done => "done"
  | .blocked => "blocked"
  | .cancelled => "cancelled"

/-- Task priority values, `src/main.ts` line 56. -/
inductive Priority where
  | low
  | medium
  | high
  | urgent
deriving DecidableEq, Repr

/-- Project status values, `src/main.ts` line 44. -/
inductive ProjectStatus where
  | active
  | completed
  | archived
deriving DecidableEq, Repr

/-- The `interface Project` record, `src/main.ts` lines 40-49. -/
structure Project where
  id : String
  name : String
  description : Option String
  status : ProjectStatus
  created_at : String
  updated_at : String
  markdown_file : Option String
  github_repo : Option String
deriving DecidableEq, Repr

/-- The `interface Task` record, `src/main.ts` lines 51-63. -/
structure Task where
  id : String
  title : String
  description : Option String
  status : TaskStatus
  priority : Priority
  project_id : Option String
  created_at : String
  updated_at : String
  due_date : Option String
  markdown_file : Option String
  github_repo : Option String
deriving DecidableEq, Repr

/-- The five droppable column identifiers of the board, in column order
(`src/main.ts` lines 1001-1035, each `KanbanColumn`'s `status` prop, used as
the `useDroppable` id at lines 1139-1141). -/
def statusStrings : List String :=
  ["todo", "in-progress", "done", "blocked", "cancelled"]

/-- The project-filtering effect of `KanbanBoard`, `src/main.ts` lines 927-935:
`selectedProjectId === null` shows all tasks, otherwise
`currentTasks.filter(task => task.project_id === selectedProjectId)`. -/
def filteredTasksOf (currentTasks : List Task) (selectedProjectId : Option String) :
    List Task :=
  match selectedProjectId with
  | none => currentTasks
  | some pid => currentTasks.filter (fun task => task.project_id == some pid)

/-- The five status buckets of the board, mirroring the object literal
`tasksByStatus` at `src/main.ts` lines 937-943. -/
structure TasksByStatus where
  todo : List Task
  inProgress : List Task
  done : List Task
  blocked : List Task
  cancelled : List Task
deriving DecidableEq, Repr

/-- The board grouping `tasksByStatus`, `src/main.ts` lines 937-943: one `filter` per fixed status. -/
def tasksByStatus (filteredTasks : List Task) : TasksByStatus :=
  { todo := filteredTasks.filter (fun task => task.status == .todo)
  , inProgress := filteredTasks.filter (fun task => task.status == .inProgress)
  , done := filteredTasks.filter (fun task => task.status == .done)
  , blocked := filteredTasks.filter (fun task => task.status == .blocked)
  , cancelled := filteredTasks.filter (fun task => task.status == .cancelled) }

/-- Bucket lookup by status key. -/
def TasksByStatus.bucket (b : TasksByStatus) : TaskStatus → List Task
  | .todo => b.todo
  | .inProgress => b.inProgress
  | .done => b.done
  | .blocked => b.blocked
  | .cancelled => b.cancelled

/-- The concatenation of all five buckets in key order. -/
def TasksByStatus.allTasks (b : TasksByStatus) : List Task :=
  b.todo ++ b.inProgress ++ b.done ++ b.blocked ++ b.cancelled

/-- A backend error object, carrying the backend-supplied message. -/
structure FetchError where
  message : String
deriving DecidableEq, Repr

/-- The `{ data, error }` shape returned by the remote `select` call
(`src/main.ts` lines 277-280 and 299-302). -/
structure FetchResult (α : Type) where
  data : Option (List α)
  error : Option FetchError
deriving DecidableEq, Repr

/-- The observable outcome of one `loadProjects`/`loadTasks` run:
the mirror collection afterwards, whether the open kanban view was told to
re-render (`updateBoard`), the user notices emitted, and whether the remote
fetch was attempted at all. -/
structure LoadOutcome (α : Type) where
  mirror : List α
  viewNotified : Bool
  notices : List String
  fetched : Bool
deriving DecidableEq, Repr

/-- The method `ProjectManagerPlugin.loadTasks`, `src/main.ts` lines 295-315.
`hasClient` is `this.supabase !== null`; `res` is the awaited fetch result;
`prior` is `this.tasks` before the call; `viewOpen` is
`this.kanbanView !== null`. A thrown `error` lands in the catch block, which
logs and emits the failure notice, leaving `this.tasks` untouched. -/
def loadTasksRun (hasClient : Bool) (res : FetchResult Task) (prior : List Task)
    (viewOpen : Bool) : LoadOutcome Task :=
  if !hasClient then
    { mirror := prior, viewNotified := false, notices := [], fetched := false }
  else
    match res.error with
    | some _ =>
      { mirror := prior, viewNotified := false
      , notices := ["Failed to load tasks"], fetched := true }
    | none =>
      { mirror := res.data.getD [], viewNotified := viewOpen
      , notices := [], fetched := true }

/-- The method `ProjectManagerPlugin.loadProjects`, `src/main.ts` lines 273-293;
identical control flow to `loadTasks` over the `projects` collection. -/
def loadProjectsRun (hasClient : Bool) (res : FetchResult Project)
    (prior : List Project) (viewOpen : Bool) : LoadOutcome Project :=
  if !hasClient then
    { mirror := prior, viewNotified := false, notices := [], fetched := false }
  else
    match res.error with
    | some _ =>
      { mirror := prior, viewNotified := false
      , notices := ["Failed to load projects"], fetched := true }
    | none =>
      { mirror := res.data.getD [], viewNotified := viewOpen
      , notices := [], fetched := true }

/-- The insert payload built by `CreateTaskModal.createTask`,
`src/main.ts` line 567: `{ title, description, priority, project_id? }`.
`project_id = none` models the field being absent from the object. -/
structure TaskInsertPayload where
  title : String
  description : String
  priority : Priority
  project_id : Option String
deriving DecidableEq, Repr

/-- The partial-update object built by `TaskDetailModal` (`src/main.ts`
lines 659-668) and passed to the remote `update`. -/
structure TaskUpdates where
  title : String
  description : Option String
  priority : Priority
  status : TaskStatus
  project_id : Option String
  due_date : Option String
  markdown_file : Option String
  github_repo : Option String
deriving DecidableEq, Repr

/-- One externally observable action of a UI flow: a remote table operation,
a user notice, or a triggered reload of a mirror collection. -/
inductive Eff where
  | updateTaskStatus (id : String) (status : String)
  | updateTaskRow (id : String) (updates : TaskUpdates)
  | deleteTaskRow (id : String)
  | insertTask (payload : TaskInsertPayload)
  | insertProject (name : String) (description : String)
  | notice (msg : String)
  | reloadTasks
  | reloadProjects
deriving DecidableEq, Repr

/-- Whether an effect is a remote (network) call. -/
def Eff.isRemote : Eff → Bool
  | .updateTaskStatus _ _ => true
  | .updateTaskRow _ _ => true
  | .deleteTaskRow _ => true
  | .insertTask _ => true
  | .insertProject _ _ => true
  | .notice _ => false
  | .reloadTasks => false
  | .reloadProjects => false

/-- The handler `KanbanBoard.handleDragEnd`, `src/main.ts` lines 949-982, as the list of
effects it performs. `filteredTasks` is the component state the task is looked
up in; `hasSupabase` is `plugin.supabase !== null`; `updateError` is the
`error` field of the awaited remote update result; `activeId` is `active.id`;
`overId` is `over?.id` (`none` when the gesture ended over no drop target).
The destination status is `over.id as string`, used without validation. -/
def handleDragEnd (filteredTasks : List Task) (hasSupabase : Bool)
    (enableRealtime : Bool) (updateError : Option FetchError)
    (activeId : String) (overId : Option String) : List Eff :=
  match overId with
  | none => []
  | some newStatus =>
    match filteredTasks.find? (fun t => t.id == activeId) with
    | none => []
    | some task =>
      if task.status.toStr == newStatus then []
      else if hasSupabase then
        Eff.updateTaskStatus activeId newStatus ::
          match updateError with
          | none =>
            Eff.notice ("Task moved to " ++ newStatus) ::
              (if !enableRealtime then [Eff.reloadTasks] else [])
          | some _ => [Eff.notice "Failed to move task"]
      else []

/-- The `projectSelect.value || undefined` argument built by the create-task
button handler, `src/main.ts` line 551: an empty select value becomes
`undefined`. -/
def projectSelectArg (value : String) : Option String :=
  if value == "" then none else some value

/-- The payload construction inside `CreateTaskModal.createTask`,
`src/main.ts` lines 567-568: `project_id` is added only when `projectId` is
truthy (present and non-empty). -/
def buildTaskPayload (title description : String) (priority : Priority)
    (projectId : Option String) : TaskInsertPayload :=
  { title := title, description := description, priority := priority
  , project_id :=
      match projectId with
      | none => none
      | some p => if p == "" then none else some p }

/-- The method `CreateTaskModal.createTask`, `src/main.ts` lines 560-585, as its effect
trace. -/
def createTaskRun (hasClient : Bool) (insertError : Option FetchError)
    (enableRealtime : Bool) (title description : String) (priority : Priority)
    (projectId : Option String) : List Eff :=
  if !hasClient then [Eff.notice "Not connected to Supabase"]
  else
    Eff.insertTask (buildTaskPayload title description priority projectId) ::
      match insertError with
      | none =>
        Eff.notice ("Task \"" ++ title ++ "\" created successfully") ::
          (if !enableRealtime then [Eff.reloadTasks] else [])
      | some _ => [Eff.notice "Failed to create task"]

/-- The method `CreateProjectModal.createProject`, `src/main.ts` lines 480-502, as its
effect trace. -/
def createProjectRun (hasClient : Bool) (insertError : Option FetchError)
    (enableRealtime : Bool) (name description : String) : List Eff :=
  if !hasClient then [Eff.notice "Not connected to Supabase"]
  else
    Eff.insertProject name description ::
      match insertError with
      | none =>
        Eff.notice ("Project \"" ++ name ++ "\" created successfully") ::
          (if !enableRealtime then [Eff.reloadProjects] else [])
      | some _ => [Eff.notice "Failed to create project"]

/-- The method `TaskDetailModal.updateTask`, `src/main.ts` lines 682-704, as its effect
trace. -/
def updateTaskRun (hasClient : Bool) (updateError : Option FetchError)
    (enableRealtime : Bool) (taskId : String) (updates : TaskUpdates) :
    List Eff :=
  if !hasClient then [Eff.notice "Not connected to Supabase"]
  else
    Eff.updateTaskRow taskId updates ::
      match updateError with
      | none =>
        Eff.notice "Task updated successfully" ::
          (if !enableRealtime then [Eff.reloadTasks] else [])
      | some _ => [Eff.notice "Failed to update task"]

/-- The method `TaskDetailModal.deleteTask`, `src/main.ts` lines 706-728, as its effect
trace. -/
def deleteTaskRun (hasClient : Bool) (deleteError : Option FetchError)
    (enableRealtime : Bool) (taskId : String) : List Eff :=
  if !hasClient then [Eff.notice "Not connected to Supabase"]
  else
    Eff.deleteTaskRow taskId ::
      match deleteError with
      | none =>
        Eff.notice "Task deleted successfully" ::
          (if !enableRealtime then [Eff.reloadTasks] else [])
      | some _ => [Eff.notice "Failed to delete task"]

/-- The project lookup and badge of `TaskCard`, `src/main.ts` lines 1206 and
1284-1285: `plugin.projects.find(p => p.id === task.project_id)`, and the
badge shows `project.name` only when a project was found. `none` models the
badge being absent. -/
def projectBadge (projects : List Project) (task : Task) : Option String :=
  (projects.find? (fun p => some p.id == task.project_id)).map (fun p => p.name)

/-! ### Helper lemmas -/

theorem count_filter_status (ft : List Task) (s : TaskStatus) (t : Task) :
    (ft.filter (fun x => x.status == s)).count t =
      if t.status = s then ft.count t else 0 := by
  by_cases h : t.status = s
  · rw [if_pos h]
    exact List.count_filter (by simp [h])
  · rw [if_neg h, List.count_eq_zero]
    intro hmem
    exact h (by simpa using (List.mem_filter.mp hmem).2)

/-! ### Claims -/

/-- C1: `tasksByStatus` partitions the project-filtered tasks into the five
fixed status buckets: a task is in a bucket iff it is a filtered task and the
bucket key equals its own `status`; all five keys are structurally present;
and the concatenation of the buckets is a permutation of the filtered list. -/
theorem board_projection_partition (tasks : List Task) (sel : Option String) :
    (∀ (t : Task) (s : TaskStatus),
        t ∈ (tasksByStatus (filteredTasksOf tasks sel)).bucket s ↔
          t ∈ filteredTasksOf tasks sel ∧ t.status = s) ∧
    (tasksByStatus (filteredTasksOf tasks sel)).allTasks.Perm
      (filteredTasksOf tasks sel) := by
  constructor
  · intro t s
    cases s <;>
      simp [tasksByStatus, TasksByStatus.bucket, List.mem_filter]
  · apply List.perm_iff_count.mpr
    intro t
    show ((tasksByStatus (filteredTasksOf tasks sel)).todo ++ _ ++ _ ++ _ ++ _).count t = _
    simp only [List.count_append, tasksByStatus, count_filter_status]
    cases h : t.status <;> simp [h]

/-- C2: the board's filtering step keeps a task iff its `project_id` equals
the selected project id exactly, and a `null` selection keeps every task. -/
theorem board_projection_filter (T : List Task) (P : String) :
    (∀ t : Task, t ∈ filteredTasksOf T (some P) ↔
        t ∈ T ∧ t.project_id = some P) ∧
    filteredTasksOf T none = T := by
  constructor
  · intro t
    simp [filteredTasksOf, List.mem_filter]
  · rfl

/-- A concrete task used by witnesses and counterexamples. -/
def t1ex : Task :=
  { id := "t1", title := "Task 1", description := none, status := .todo
  , priority := .medium, project_id := some "p1", created_at := "2024-01-01"
  , updated_at := "2024-01-02", due_date := none, markdown_file := none
  , github_repo := none }

/-- A concrete project used by witnesses. -/
def p1ex : Project :=
  { id := "p1", name := "Project 1", description := none, status := .active
  , created_at := "2024-01-01", updated_at := "2024-01-02"
  , markdown_file := none, github_repo := none }

/-- C3: with a configured client, a successful fetch replaces the mirror
wholesale with exactly the fetched sequence in fetch order, and a failed
fetch leaves the mirror unchanged and does not notify the open view — for
both `loadTasks` and `loadProjects`. -/
theorem reload_atomicity :
    (∀ (res : FetchResult Task) (prior : List Task) (viewOpen : Bool),
        (res.error = none →
          (loadTasksRun true res prior viewOpen).mirror = res.data.getD []) ∧
        (∀ e, res.error = some e →
          (loadTasksRun true res prior viewOpen).mirror = prior ∧
          (loadTasksRun true res prior viewOpen).viewNotified = false)) ∧
    (∀ (res : FetchResult Project) (prior : List Project) (viewOpen : Bool),
        (res.error = none →
          (loadProjectsRun true res prior viewOpen).mirror = res.data.getD []) ∧
        (∀ e, res.error = some e →
          (loadProjectsRun true res prior viewOpen).mirror = prior ∧
          (loadProjectsRun true res prior viewOpen).viewNotified = false)) := by
  constructor
  · intro res prior viewOpen
    constructor
    · intro h
      simp [loadTasksRun, h]
    · intro e h
      simp [loadTasksRun, h]
  · intro res prior viewOpen
    constructor
    · intro h
      simp [loadProjectsRun, h]
    · intro e h
      simp [loadProjectsRun, h]

theorem reload_atomicity_witness :
    (loadTasksRun true ⟨some [t1ex], none⟩ [] true).mirror = [t1ex] ∧
    (loadTasksRun true ⟨none, some ⟨"boom"⟩⟩ [t1ex] true).mirror = [t1ex] ∧
    (loadTasksRun true ⟨none, some ⟨"boom"⟩⟩ [t1ex] true).viewNotified = false :=
  ⟨(reload_atomicity.1 ⟨some [t1ex], none⟩ [] true).1 rfl,
   ((reload_atomicity.1 ⟨none, some ⟨"boom"⟩⟩ [t1ex] true).2 ⟨"boom"⟩ rfl).1,
   ((reload_atomicity.1 ⟨none, some ⟨"boom"⟩⟩ [t1ex] true).2 ⟨"boom"⟩ rfl).2⟩

/-- C4: a drag ending over a valid status column different from the task's
current status, with a client configured and realtime disabled, issues
exactly one remote status update followed (on success) by exactly one reload
of the tasks collection and no reload of the projects collection. -/
theorem drag_update_then_reload (ft : List Task) (activeId newStatus : String)
    (task : Task)
    (hfind : ft.find? (fun t => t.id == activeId) = some task)
    (_hvalid : newStatus ∈ statusStrings)
    (hdiff : task.status.toStr ≠ newStatus) :
    handleDragEnd ft true false none activeId (some newStatus) =
      [Eff.updateTaskStatus activeId newStatus,
       Eff.notice ("Task moved to " ++ newStatus),
       Eff.reloadTasks] ∧
    (handleDragEnd ft true false none activeId (some newStatus)).filter
        (fun e => e.isRemote) = [Eff.updateTaskStatus activeId newStatus] ∧
    (handleDragEnd ft true false none activeId
        (some newStatus)).count Eff.reloadTasks = 1 ∧
    (handleDragEnd ft true false none activeId
        (some newStatus)).count Eff.reloadProjects = 0 := by
  have htrace : handleDragEnd ft true false none activeId (some newStatus) =
      [Eff.updateTaskStatus activeId newStatus,
       Eff.notice ("Task moved to " ++ newStatus),
       Eff.reloadTasks] := by
    simp [handleDragEnd, hfind, hdiff]
  refine ⟨htrace, ?_, ?_, ?_⟩ <;>
    simp [htrace, Eff.isRemote, List.count_cons]

theorem drag_update_then_reload_witness :
    handleDragEnd [t1ex] true false none "t1" (some "done") =
      [Eff.updateTaskStatus "t1" "done",
       Eff.notice ("Task moved to " ++ "done"),
       Eff.reloadTasks] :=
  (drag_update_then_reload [t1ex] "t1" "done" t1ex (by decide) (by decide)
    (by decide)).1

/-- C6 counterexample: `handleDragEnd` does not check the destination
identifier against the five status values. With the identifier `"t2"` (a task
card id, not a status — task cards are themselves droppable sortable items),
the handler still issues a remote update writing `"t2"` into the task's
`status` column. -/
theorem drop_target_validation_cex :
    "t2" ∉ statusStrings ∧
    Eff.updateTaskStatus "t1" "t2" ∈
      handleDragEnd [t1ex] true true none "t1" (some "t2") := by
  decide

/-- C6 amended: the handler performs no validation of the destination
identifier: any `over` identifier whatsoever, whether or not it is one of the
five fixed status values, is used directly as the destination status, and
whenever it differs from the found task's current status string (client
configured) a remote update to that raw identifier is issued. Only a missing
drop target or an unknown task id yields no remote call. -/
theorem drop_target_unvalidated (ft : List Task) (enableRealtime : Bool)
    (updateError : Option FetchError) (activeId dest : String) (task : Task)
    (hfind : ft.find? (fun t => t.id == activeId) = some task)
    (hdiff : task.status.toStr ≠ dest) :
    (∃ rest, handleDragEnd ft true enableRealtime updateError activeId
        (some dest) = Eff.updateTaskStatus activeId dest :: rest) ∧
    (∀ hs rt err,
      handleDragEnd ft hs rt err activeId none = []) ∧
    (∀ (ft2 : List Task) (hs rt : Bool) (err : Option FetchError) (o : String),
      ft2.find? (fun t => t.id == activeId) = none →
      handleDragEnd ft2 hs rt err activeId (some o) = []) := by
  refine ⟨?_, ?_, ?_⟩
  · cases updateError with
    | none =>
      refine ⟨Eff.notice ("Task moved to " ++ dest) ::
        (if !enableRealtime then [Eff.reloadTasks] else []), ?_⟩
      simp [handleDragEnd, hfind, hdiff]
    | some e =>
      refine ⟨[Eff.notice "Failed to move task"], ?_⟩
      simp [handleDragEnd, hfind, hdiff]
  · intro hs rt err
    rfl
  · intro ft2 hs rt err o hnone
    simp [handleDragEnd, hnone]

theorem drop_target_unvalidated_witness :
    ∃ rest, handleDragEnd [t1ex] true true (some ⟨"invalid enum"⟩) "t1"
        (some "t2") = Eff.updateTaskStatus "t1" "t2" :: rest :=
  (drop_target_unvalidated [t1ex] true (some ⟨"invalid enum"⟩) "t1" "t2" t1ex
    (by decide) (by decide)).1

/-- C7 counterexample: with no client session, `loadTasks` returns at the
`if (!this.supabase) return` gate — completely silently: no network attempt,
but also no error of any kind surfaced (no notice, no view notification),
contradicting "every operation fails with a ConnectionError". -/
theorem no_client_silent_load_cex :
    loadTasksRun false ⟨some [t1ex], none⟩ [t1ex] true =
      { mirror := [t1ex], viewNotified := false, notices := []
      , fetched := false } := by
  decide

/-- C7 amended: with no client session configured, no operation makes a
network attempt; the modal operations (create project, create task, update
task, delete task) surface a "Not connected to Supabase" notice, while
`loadProjects`/`loadTasks` and the drag handler return silently with no error
surfaced and no state change. -/
theorem no_client_no_network :
    (∀ (res : FetchResult Task) (prior : List Task) (v : Bool),
        loadTasksRun false res prior v =
          { mirror := prior, viewNotified := false, notices := []
          , fetched := false }) ∧
    (∀ (res : FetchResult Project) (prior : List Project) (v : Bool),
        loadProjectsRun false res prior v =
          { mirror := prior, viewNotified := false, notices := []
          , fetched := false }) ∧
    (∀ (ft : List Task) (rt : Bool) (err : Option FetchError)
        (a : String) (o : Option String),
        handleDragEnd ft false rt err a o = []) ∧
    (∀ (err : Option FetchError) (rt : Bool) (title descr : String)
        (pr : Priority) (pid : Option String),
        createTaskRun false err rt title descr pr pid =
          [Eff.notice "Not connected to Supabase"]) ∧
    (∀ (err : Option FetchError) (rt : Bool) (name descr : String),
        createProjectRun false err rt name descr =
          [Eff.notice "Not connected to Supabase"]) ∧
    (∀ (err : Option FetchError) (rt : Bool) (id : String) (u : TaskUpdates),
        updateTaskRun false err rt id u =
          [Eff.notice "Not connected to Supabase"]) ∧
    (∀ (err : Option FetchError) (rt : Bool) (id : String),
        deleteTaskRun false err rt id =
          [Eff.notice "Not connected to Supabase"]) := by
  refine ⟨fun _ _ _ => rfl, fun _ _ _ => rfl, ?_,
    fun _ _ _ _ _ _ => rfl, fun _ _ _ _ => rfl, fun _ _ _ _ => rfl,
    fun _ _ _ => rfl⟩
  intro ft rt err a o
  cases o with
  | none => rfl
  | some dest =>
    cases hf : ft.find? (fun t => t.id == a) with
    | none => simp [handleDragEnd, hf]
    | some task =>
      simp only [handleDragEnd, hf]
      split <;> simp

/-- C8: a reload whose fetch fails with a backend error is observably
distinct from a silent success: the failure notice is emitted, the view is
not re-rendered, the mirror keeps its prior value — whereas every successful
reload emits no notices at all. -/
theorem reload_failure_surfaced (prior : List Project) (viewOpen : Bool)
    (e : FetchError) (d : Option (List Project)) :
    (loadProjectsRun true ⟨d, some e⟩ prior viewOpen).notices =
      ["Failed to load projects"] ∧
    (loadProjectsRun true ⟨d, some e⟩ prior viewOpen).viewNotified = false ∧
    (loadProjectsRun true ⟨d, some e⟩ prior viewOpen).mirror = prior ∧
    (∀ (d2 : List Project) (prior2 : List Project) (v2 : Bool),
        (loadProjectsRun true ⟨some d2, none⟩ prior2 v2).notices = []) := by
  refine ⟨rfl, rfl, rfl, fun _ _ _ => rfl⟩

/-- C9: a task whose `project_id` matches no project in the mirror renders
with no project badge (the total lookup returns `none`, so nothing can be
raised), and the task still lands in its own status bucket of the board. -/
theorem dangling_project_ref (projects : List Project) (ft : List Task)
    (task : Task)
    (hdangling : ∀ p ∈ projects, some p.id ≠ task.project_id)
    (hmem : task ∈ ft) :
    projectBadge projects task = none ∧
    task ∈ (tasksByStatus ft).bucket task.status := by
  constructor
  · have : projects.find? (fun p => some p.id == task.project_id) = none := by
      rw [List.find?_eq_none]
      intro p hp
      simpa using hdangling p hp
    simp [projectBadge, this]
  · cases h : task.status <;>
      simp [tasksByStatus, TasksByStatus.bucket, List.mem_filter, hmem, h]

theorem dangling_project_ref_witness :
    projectBadge [p1ex]
      { t1ex with project_id := some "p-deleted" } = none ∧
    { t1ex with project_id := some "p-deleted" } ∈
      (tasksByStatus [{ t1ex with project_id := some "p-deleted" }]).bucket
        TaskStatus.todo :=
  dangling_project_ref [p1ex] [{ t1ex with project_id := some "p-deleted" }]
    { t1ex with project_id := some "p-deleted" } (by decide) (by decide)

/-- C10: the create-task flow includes `project_id` in the insert payload iff
a non-empty project id was selected; an empty selection omits the field, and
an empty-string `project_id` is never sent. -/
theorem create_task_project_id (v title descr : String) (pr : Priority) :
    (buildTaskPayload title descr pr (projectSelectArg v)).project_id =
      (if v == "" then none else some v) ∧
    ((buildTaskPayload title descr pr (projectSelectArg v)).project_id = none
      ↔ v = "") ∧
    (buildTaskPayload title descr pr (projectSelectArg v)).project_id ≠
      some "" ∧
    (∀ (err : Option FetchError) (rt : Bool),
        Eff.insertTask (buildTaskPayload title descr pr (projectSelectArg v))
          ∈ createTaskRun true err rt title descr pr (projectSelectArg v)) := by
  refine ⟨?_, ?_, ?_, ?_⟩
  · by_cases h : v = "" <;> simp [projectSelectArg, buildTaskPayload, h]
  · by_cases h : v = "" <;> simp [projectSelectArg, buildTaskPayload, h]
  · by_cases h : v = "" <;> simp [projectSelectArg, buildTaskPayload, h]
  · intro err rt
    cases err <;> simp [createTaskRun]


/-- C5: a drop onto the task's own status column, or a gesture ending over no
drop target, produces an empty effect trace: no remote call, no reload, no
notification, and no state change. -/
theorem drop_same_column_noop (ft : List Task)
    (hasSupabase enableRealtime : Bool) (updateError : Option FetchError)
    (activeId newStatus : String) (task : Task)
    (hfind : ft.find? (fun t => t.id == activeId) = some task)
    (hsame : task.status.toStr = newStatus) :
    handleDragEnd ft hasSupabase enableRealtime updateError activeId
        (some newStatus) = [] ∧
    handleDragEnd ft hasSupabase enableRealtime updateError activeId
        none = [] := by
  constructor
  · simp [handleDragEnd, hfind, hsame]
  · rfl

theorem drop_same_column_noop_witness :
    handleDragEnd [t1ex] true true none "t1" (some "todo") = [] ∧
    handleDragEnd [t1ex] true true none "t1" none = [] :=
  drop_same_column_noop [t1ex] true true none "t1" "todo" t1ex
    (by decide) (by decide)

end ProjectManager
